import Mathlib

/-!
Shallow embedding of `src/hvd.c` (HVD, a thin wrapper around FFmpeg hardware
video decoding).

The wrapped FFmpeg framework is external to this repository; its calls are
modelled as oracles: an environment structure records, per wrapper call, the
return codes and data the framework would produce, and the wrapper functions
are pure functions of that environment plus the `struct hvd` state.  Framework
enum constants (`AVPixelFormat`, `AVHWDeviceType`, `AVERROR` codes) are
modelled as `Int` constants; only their distinctness (and `AV_PIX_FMT_NONE = -1`,
used as an array terminator, and the negativity of the error codes) is relied
upon, matching how `hvd.c` uses them.
-/

namespace HvdSpec

/-- Modelled from the spec: the wrapper's status codes `HVD_OK`, `HVD_AGAIN`
and `HVD_ERROR` are declared in `hvd.h`, which is not under `src/`.  The spec
describes them as three distinct translated error codes; `hvd.c` additionally
tests `*error` for truth, so `HVD_OK` is the zero value. -/
def HVD_OK : Int := 0

/-- Modelled from the spec: see `HVD_OK`. -/
def HVD_AGAIN : Int := 1

/-- Modelled from the spec: see `HVD_OK`. -/
def HVD_ERROR : Int := -1

/-- Sentinel pixel format, `-1` in FFmpeg; used both as a failure value and as
the terminator of `get_format` pixel-format arrays in `hvd.c`. -/
def AV_PIX_FMT_NONE : Int := -1

/-- Framework pixel-format constant; only distinctness from the other pixel
formats and from `AV_PIX_FMT_NONE` is used by `hvd.c`. -/
def AV_PIX_FMT_VAAPI : Int := 44

/-- Framework pixel-format constant. -/
def AV_PIX_FMT_DXVA2_VLD : Int := 53

/-- Framework pixel-format constant. -/
def AV_PIX_FMT_D3D11 : Int := 172

/-- Framework pixel-format constant. -/
def AV_PIX_FMT_VDPAU : Int := 97

/-- Framework pixel-format constant. -/
def AV_PIX_FMT_VIDEOTOOLBOX : Int := 158

/-- Framework device-type constant, the failure value of
`av_hwdevice_find_type_by_name`. -/
def AV_HWDEVICE_TYPE_NONE : Int := 0

/-- Framework device-type constant. -/
def AV_HWDEVICE_TYPE_VDPAU : Int := 1

/-- Framework device-type constant. -/
def AV_HWDEVICE_TYPE_CUDA : Int := 2

/-- Framework device-type constant. -/
def AV_HWDEVICE_TYPE_VAAPI : Int := 3

/-- Framework device-type constant. -/
def AV_HWDEVICE_TYPE_DXVA2 : Int := 4

/-- Framework device-type constant. -/
def AV_HWDEVICE_TYPE_QSV : Int := 5

/-- Framework device-type constant. -/
def AV_HWDEVICE_TYPE_VIDEOTOOLBOX : Int := 6

/-- Framework device-type constant. -/
def AV_HWDEVICE_TYPE_D3D11VA : Int := 7

/-- Framework error code `AVERROR(EAGAIN)` (negated POSIX `EAGAIN`); `hvd.c`
relies only on it being negative and distinct from `AVERROR_EOF`. -/
def AVERROR_EAGAIN : Int := -11

/-- Framework error code `AVERROR_EOF`; negative and distinct from
`AVERROR_EAGAIN`. -/
def AVERROR_EOF : Int := -541478725

/-- Model of `AVPacket` restricted to the fields `hvd.c` touches: the data
pointer (an abstract address, `none` for `NULL`) and the size. -/
structure AVPacket where
  data : Option Nat
  size : Int
deriving DecidableEq

/-- Model of `AVFrame` restricted to what `hvd.c` reads: the `format` field
and an abstract identity for the frame's pixel data. -/
structure AVFrame where
  format : Int
  id : Nat
deriving DecidableEq

/-- Blank frame as produced by `av_frame_alloc` (format unset, i.e. `-1`). -/
def blank_frame : AVFrame := { format := -1, id := 0 }

/-- Model of the `AVCodecContext` fields `hvd_init` sets: the codec it was
allocated for (abstract id) and the `hw_device_ctx` buffer reference. -/
structure DecoderCtx where
  codec : Nat
  hw_device_ref : Option Nat
deriving DecidableEq

/-- Model of `struct hvd` from `hvd.c` lines 23-31, field for field.
`AVBufferRef` pointers are abstract addresses. -/
structure Hvd where
  hw_device_ctx : Option Nat
  hw_pix_fmt : Int
  decoder_ctx : Option DecoderCtx
  sw_frame : Option AVFrame
  hw_frame : Option AVFrame
  av_packet : AVPacket
deriving DecidableEq

/-- Modelled from the spec: `struct hvd_config` is declared in `hvd.h`, which
is not under `src/`.  `hvd.c` reads exactly the fields `hardware`, `codec`
and `device` (the last may be `NULL`). -/
structure HvdConfig where
  hardware : String
  codec : String
  device : Option String

/-- Modelled from the spec: `struct hvd_packet` is declared in `hvd.h`, which
is not under `src/`.  `hvd.c` reads exactly its `data` and `size` fields. -/
structure HvdPacket where
  data : Option Nat
  size : Int
deriving DecidableEq

/-- Embedding of `hvd_find_pixel_fmt_by_hw_type` (`hvd.c` lines 118-144): a
hardcoded switch, local to the wrapper, from a hardware device type to the
corresponding hardware pixel format; `AV_PIX_FMT_NONE` in the default case. -/
def hvd_find_pixel_fmt_by_hw_type (type : Int) : Int :=
  if type = AV_HWDEVICE_TYPE_VAAPI then AV_PIX_FMT_VAAPI
  else if type = AV_HWDEVICE_TYPE_DXVA2 then AV_PIX_FMT_DXVA2_VLD
  else if type = AV_HWDEVICE_TYPE_D3D11VA then AV_PIX_FMT_D3D11
  else if type = AV_HWDEVICE_TYPE_VDPAU then AV_PIX_FMT_VDPAU
  else if type = AV_HWDEVICE_TYPE_VIDEOTOOLBOX then AV_PIX_FMT_VIDEOTOOLBOX
  else AV_PIX_FMT_NONE

/-- Embedding of `hvd_get_hw_pix_format` (`hvd.c` lines 146-159): scan the
`-1`-terminated pixel-format array for the handle's stored hardware pixel
format (the handle arrives through `ctx->opaque`); return it on the first
match, `AV_PIX_FMT_NONE` when the terminator is reached without a match.
The C loop presupposes a `-1`-terminated array; the `[]` case is outside its
domain and is given the loop's fallthrough value. -/
def hvd_get_hw_pix_format (h : Hvd) : List Int → Int
  | [] => AV_PIX_FMT_NONE
  | p :: ps =>
    if p = -1 then AV_PIX_FMT_NONE
    else if p = h.hw_pix_fmt then p
    else hvd_get_hw_pix_format h ps

/-- Oracle for the framework calls made by `hvd_init`, one field per call in
source order: `malloc`, `av_hwdevice_find_type_by_name`,
`avcodec_find_decoder_by_name` (decoders as abstract ids),
`avcodec_alloc_context3`, `av_hwdevice_ctx_create` (return code and, on
success, the created context's abstract address), `av_buffer_ref` and
`avcodec_open2`. -/
structure InitEnv where
  malloc_ok : Bool
  find_type_by_name : String → Int
  find_decoder_by_name : String → Option Nat
  alloc_context_ok : Bool
  hwdevice_create_ret : Int
  hwdevice_ctx : Nat
  buffer_ref_ok : Bool
  open2_ret : Int

/-- Embedding of `hvd_init` (`hvd.c` lines 38-112).  Each guarded framework
call of the source is one test on the oracle, in source order; any failure
returns `none` (the C `hvd_close_and_return_null` path), and on success the
returned handle holds exactly what the source stored in `struct hvd`:
the device-context reference, the pixel format chosen by the local switch
`hvd_find_pixel_fmt_by_hw_type`, the opened decoder context, no frames yet,
and an initialised empty packet (`data = NULL`, `size = 0`). -/
def hvd_init (env : InitEnv) (config : HvdConfig) : Option Hvd :=
  if env.malloc_ok = false then none
  else
    let hardware_type := env.find_type_by_name config.hardware
    if hardware_type = AV_HWDEVICE_TYPE_NONE then none
    else
      let hw_pix_fmt := hvd_find_pixel_fmt_by_hw_type hardware_type
      if hw_pix_fmt = AV_PIX_FMT_NONE then none
      else
        match env.find_decoder_by_name config.codec with
        | none => none
        | some decoder =>
          if env.alloc_context_ok = false then none
          else if env.hwdevice_create_ret < 0 then none
          else if env.buffer_ref_ok = false then none
          else if env.open2_ret < 0 then none
          else some
            { hw_device_ctx := some env.hwdevice_ctx
              hw_pix_fmt := hw_pix_fmt
              decoder_ctx := some { codec := decoder, hw_device_ref := some env.hwdevice_ctx }
              sw_frame := none
              hw_frame := none
              av_packet := { data := none, size := 0 } }

/-- Result of one `hvd_send_packet` call: the translated return value, the
updated handle, and the `AVPacket` that was handed to the framework's
`avcodec_send_packet` (the source passes `&h->av_packet`). -/
structure SendResult where
  ret : Int
  h : Hvd
  sent : AVPacket
deriving DecidableEq

/-- Packet written into `h->av_packet` by `hvd_send_packet` before the
framework call (`hvd.c` lines 182-191): the caller's data pointer and size
for a non-`NULL` packet, a flush packet (`NULL`, `0`) otherwise. -/
def hvd_sent_packet (h : Hvd) (packet : Option HvdPacket) : AVPacket :=
  match packet with
  | some p => { h.av_packet with data := p.data, size := p.size }
  | none => { h.av_packet with data := none, size := 0 }

/-- Embedding of `hvd_send_packet` (`hvd.c` lines 178-204).  The framework's
`avcodec_send_packet` is the oracle `send`, a function of the packet it is
handed.  A negative framework code is translated to `HVD_AGAIN` for
`AVERROR(EAGAIN)` and `HVD_ERROR` otherwise; a non-negative code gives
`HVD_OK`. -/
def hvd_send_packet (send : AVPacket → Int) (h : Hvd) (packet : Option HvdPacket) :
    SendResult :=
  let pkt := hvd_sent_packet h packet
  let err := send pkt
  { ret :=
      if err < 0 then
        if err = AVERROR_EAGAIN then HVD_AGAIN else HVD_ERROR
      else HVD_OK
    h := { h with av_packet := pkt }
    sent := pkt }

/-- Oracle for the framework calls made by `hvd_receive_frame`: the two
`av_frame_alloc` calls, `avcodec_receive_frame` (its return code and, on
success, the decoded frame it writes), and `av_hwframe_transfer_data` as a
function of the hardware frame (return code and the host-memory frame it
fills). -/
structure ReceiveEnv where
  alloc_hw_ok : Bool
  alloc_sw_ok : Bool
  receive_ret : Int
  decoded : AVFrame
  transfer : AVFrame → Int × AVFrame

/-- Result of one `hvd_receive_frame` call: the returned frame pointer
(`none` for `NULL`), the value stored through the `error` out-parameter, the
updated handle, and whether `avcodec_flush_buffers` was called on the
decoder context during the call. -/
structure ReceiveResult where
  frame : Option AVFrame
  error : Int
  h : Hvd
  flush_called : Bool

/-- Embedding of `hvd_receive_frame` (`hvd.c` lines 211-258), in source
order: `*error` starts as `HVD_ERROR`; both frames are freed; the two
allocations may fail (on the first failing, the second is not attempted);
`avcodec_receive_frame` failing with `EAGAIN` or `EOF` gives `NULL` with
`HVD_OK`, flushing the decoder buffers in the `EOF` case, and any other
negative code gives `NULL` with `HVD_ERROR`; a decoded frame whose format is
not the handle's hardware pixel format is rejected; otherwise the frame is
transferred to system memory and the host copy is returned with `HVD_OK`. -/
def hvd_receive_frame (env : ReceiveEnv) (h : Hvd) : ReceiveResult :=
  let h0 := { h with hw_frame := none, sw_frame := none }
  if env.alloc_hw_ok = false then
    { frame := none, error := HVD_ERROR, h := h0, flush_called := false }
  else
    let h1 := { h0 with hw_frame := some blank_frame }
    if env.alloc_sw_ok = false then
      { frame := none, error := HVD_ERROR, h := h1, flush_called := false }
    else
      let h2 := { h1 with sw_frame := some blank_frame }
      if env.receive_ret < 0 then
        { frame := none
          error :=
            if env.receive_ret = AVERROR_EAGAIN ∨ env.receive_ret = AVERROR_EOF then
              HVD_OK
            else HVD_ERROR
          h := h2
          flush_called := decide (env.receive_ret = AVERROR_EOF) }
      else
        let h3 := { h2 with hw_frame := some env.decoded }
        if env.decoded.format ≠ h.hw_pix_fmt then
          { frame := none, error := HVD_ERROR, h := h3, flush_called := false }
        else
          let t := env.transfer env.decoded
          if t.1 < 0 then
            { frame := none, error := HVD_ERROR, h := h3, flush_called := false }
          else
            { frame := some t.2, error := HVD_OK
              h := { h3 with sw_frame := some t.2 }, flush_called := false }

/-- Following the spec's words, for comparison with the code (claim C6): a
variant of `hvd_init` in which the mapping from device type to hardware pixel
format is computed by the external framework — here an extra framework oracle
`framework_map` — instead of the wrapper's local switch.  Everything else is
as in `hvd_init`. -/
def hvd_init_spec_delegated (framework_map : Int → Int) (env : InitEnv)
    (config : HvdConfig) : Option Hvd :=
  if env.malloc_ok = false then none
  else
    let hardware_type := env.find_type_by_name config.hardware
    if hardware_type = AV_HWDEVICE_TYPE_NONE then none
    else
      let hw_pix_fmt := framework_map hardware_type
      if hw_pix_fmt = AV_PIX_FMT_NONE then none
      else
        match env.find_decoder_by_name config.codec with
        | none => none
        | some decoder =>
          if env.alloc_context_ok = false then none
          else if env.hwdevice_create_ret < 0 then none
          else if env.buffer_ref_ok = false then none
          else if env.open2_ret < 0 then none
          else some
            { hw_device_ctx := some env.hwdevice_ctx
              hw_pix_fmt := hw_pix_fmt
              decoder_ctx := some { codec := decoder, hw_device_ref := some env.hwdevice_ctx }
              sw_frame := none
              hw_frame := none
              av_packet := { data := none, size := 0 } }

/-- Concrete handle used by witnesses. -/
def sample_h : Hvd :=
  { hw_device_ctx := some 1
    hw_pix_fmt := AV_PIX_FMT_VAAPI
    decoder_ctx := some { codec := 2, hw_device_ref := some 1 }
    sw_frame := none
    hw_frame := none
    av_packet := { data := none, size := 0 } }

/-- C1: for every initialized decoder handle and every packet argument,
`hvd_send_packet` returns `HVD_OK` when the framework's
`avcodec_send_packet` reports a non-negative code, `HVD_AGAIN` when it
reports `AVERROR(EAGAIN)`, `HVD_ERROR` for every other negative code, and no
other value is ever returned. -/
theorem hvd_send_packet_translates_codes (send : AVPacket → Int) (h : Hvd)
    (packet : Option HvdPacket) :
    (0 ≤ send (hvd_send_packet send h packet).sent →
      (hvd_send_packet send h packet).ret = HVD_OK) ∧
    (send (hvd_send_packet send h packet).sent = AVERROR_EAGAIN →
      (hvd_send_packet send h packet).ret = HVD_AGAIN) ∧
    (send (hvd_send_packet send h packet).sent < 0 →
      send (hvd_send_packet send h packet).sent ≠ AVERROR_EAGAIN →
      (hvd_send_packet send h packet).ret = HVD_ERROR) ∧
    ((hvd_send_packet send h packet).ret = HVD_OK ∨
      (hvd_send_packet send h packet).ret = HVD_AGAIN ∨
      (hvd_send_packet send h packet).ret = HVD_ERROR) := by
  simp only [hvd_send_packet]
  refine ⟨?_, ?_, ?_, ?_⟩
  · intro he
    rw [if_neg (by omega)]
  · intro he
    rw [if_pos (by rw [he]; decide), if_pos he]
  · intro he hne
    rw [if_pos he, if_neg hne]
  · by_cases hlt : send (hvd_sent_packet h packet) < 0
    · by_cases hea : send (hvd_sent_packet h packet) = AVERROR_EAGAIN
      · right; left; rw [if_pos hlt, if_pos hea]
      · right; right; rw [if_pos hlt, if_neg hea]
    · left; rw [if_neg hlt]

/-- Concrete framework-send oracle used by the C1 witness: every packet is
answered with `AVERROR(EAGAIN)`. -/
def again_send : AVPacket → Int := fun _ => AVERROR_EAGAIN

/-- Witness for C1 at a concrete input: a framework answer of
`AVERROR(EAGAIN)` is translated to `HVD_AGAIN`. -/
theorem hvd_send_packet_translates_codes_witness :
    (hvd_send_packet again_send sample_h (some { data := some 5, size := 3 })).ret =
      HVD_AGAIN :=
  (hvd_send_packet_translates_codes again_send sample_h
    (some { data := some 5, size := 3 })).2.1 (by decide)

/-- C5: `hvd_send_packet` forwards exactly the caller's compressed data: for
a non-`NULL` packet the `AVPacket` handed to the framework carries the
caller's data pointer and size unchanged; for a `NULL` packet it forwards a
flush packet with `data = NULL` and `size = 0`. -/
theorem hvd_send_packet_forwards_caller_data (send : AVPacket → Int) (h : Hvd) :
    (∀ p : HvdPacket,
      (hvd_send_packet send h (some p)).sent.data = p.data ∧
      (hvd_send_packet send h (some p)).sent.size = p.size) ∧
    ((hvd_send_packet send h none).sent.data = none ∧
      (hvd_send_packet send h none).sent.size = 0) :=
  ⟨fun _ => ⟨rfl, rfl⟩, rfl, rfl⟩

/-- C9: every call to `hvd_send_packet` leaves the handle's fields
`hw_device_ctx`, `hw_pix_fmt`, `decoder_ctx`, `sw_frame` and `hw_frame`
unchanged, regardless of the translated return value; only `av_packet` is
rewritten (to the packet handed to the framework). -/
theorem hvd_send_packet_preserves_other_fields (send : AVPacket → Int) (h : Hvd)
    (packet : Option HvdPacket) :
    (hvd_send_packet send h packet).h.hw_device_ctx = h.hw_device_ctx ∧
    (hvd_send_packet send h packet).h.hw_pix_fmt = h.hw_pix_fmt ∧
    (hvd_send_packet send h packet).h.decoder_ctx = h.decoder_ctx ∧
    (hvd_send_packet send h packet).h.sw_frame = h.sw_frame ∧
    (hvd_send_packet send h packet).h.hw_frame = h.hw_frame ∧
    (hvd_send_packet send h packet).h.av_packet = hvd_sent_packet h packet :=
  ⟨rfl, rfl, rfl, rfl, rfl, rfl⟩

/-- C7: `hvd_find_pixel_fmt_by_hw_type` maps exactly the five device types
VAAPI, DXVA2, D3D11VA, VDPAU and VIDEOTOOLBOX to `AV_PIX_FMT_VAAPI`,
`AV_PIX_FMT_DXVA2_VLD`, `AV_PIX_FMT_D3D11`, `AV_PIX_FMT_VDPAU` and
`AV_PIX_FMT_VIDEOTOOLBOX` respectively, returns `AV_PIX_FMT_NONE` for every
other device type (it is total by construction), and consequently `hvd_init`
returns `NULL` whenever the configured hardware's device type lies outside
that list. -/
theorem hvd_find_pixel_fmt_characterization :
    hvd_find_pixel_fmt_by_hw_type AV_HWDEVICE_TYPE_VAAPI = AV_PIX_FMT_VAAPI ∧
    hvd_find_pixel_fmt_by_hw_type AV_HWDEVICE_TYPE_DXVA2 = AV_PIX_FMT_DXVA2_VLD ∧
    hvd_find_pixel_fmt_by_hw_type AV_HWDEVICE_TYPE_D3D11VA = AV_PIX_FMT_D3D11 ∧
    hvd_find_pixel_fmt_by_hw_type AV_HWDEVICE_TYPE_VDPAU = AV_PIX_FMT_VDPAU ∧
    hvd_find_pixel_fmt_by_hw_type AV_HWDEVICE_TYPE_VIDEOTOOLBOX =
      AV_PIX_FMT_VIDEOTOOLBOX ∧
    (∀ t : Int, t ≠ AV_HWDEVICE_TYPE_VAAPI → t ≠ AV_HWDEVICE_TYPE_DXVA2 →
      t ≠ AV_HWDEVICE_TYPE_D3D11VA → t ≠ AV_HWDEVICE_TYPE_VDPAU →
      t ≠ AV_HWDEVICE_TYPE_VIDEOTOOLBOX →
      hvd_find_pixel_fmt_by_hw_type t = AV_PIX_FMT_NONE) ∧
    (∀ (env : InitEnv) (config : HvdConfig),
      env.find_type_by_name config.hardware ≠ AV_HWDEVICE_TYPE_VAAPI →
      env.find_type_by_name config.hardware ≠ AV_HWDEVICE_TYPE_DXVA2 →
      env.find_type_by_name config.hardware ≠ AV_HWDEVICE_TYPE_D3D11VA →
      env.find_type_by_name config.hardware ≠ AV_HWDEVICE_TYPE_VDPAU →
      env.find_type_by_name config.hardware ≠ AV_HWDEVICE_TYPE_VIDEOTOOLBOX →
      hvd_init env config = none) := by
  refine ⟨rfl, rfl, rfl, rfl, rfl, ?_, ?_⟩
  · intro t h1 h2 h3 h4 h5
    simp only [hvd_find_pixel_fmt_by_hw_type, if_neg h1, if_neg h2, if_neg h3,
      if_neg h4, if_neg h5]
  · intro env config h1 h2 h3 h4 h5
    simp only [hvd_init, hvd_find_pixel_fmt_by_hw_type, if_neg h1, if_neg h2,
      if_neg h3, if_neg h4, if_neg h5]
    by_cases hm : env.malloc_ok = false
    · rw [if_pos hm]
    · rw [if_neg hm]
      by_cases ht : env.find_type_by_name config.hardware = AV_HWDEVICE_TYPE_NONE
      · rw [if_pos ht]
      · rw [if_neg ht]
        simp

/-- Concrete init oracle whose device-type lookup answers with the QSV
device type, which is outside the wrapper's hardcoded list. -/
def qsv_init_env : InitEnv :=
  { malloc_ok := true
    find_type_by_name := fun _ => AV_HWDEVICE_TYPE_QSV
    find_decoder_by_name := fun _ => some 1
    alloc_context_ok := true
    hwdevice_create_ret := 0
    hwdevice_ctx := 7
    buffer_ref_ok := true
    open2_ret := 0 }

/-- Concrete configuration used by witnesses. -/
def sample_config : HvdConfig :=
  { hardware := "qsv", codec := "h264", device := none }

/-- Witness for C7 at concrete inputs: the QSV device type (outside the
hardcoded list) is mapped to `AV_PIX_FMT_NONE`, and `hvd_init` fails for a
configuration resolving to it even though every other framework step would
succeed. -/
theorem hvd_find_pixel_fmt_characterization_witness :
    hvd_find_pixel_fmt_by_hw_type AV_HWDEVICE_TYPE_QSV = AV_PIX_FMT_NONE ∧
    hvd_init qsv_init_env sample_config = none :=
  ⟨hvd_find_pixel_fmt_characterization.2.2.2.2.2.1 AV_HWDEVICE_TYPE_QSV
      (by decide) (by decide) (by decide) (by decide) (by decide),
    hvd_find_pixel_fmt_characterization.2.2.2.2.2.2 qsv_init_env sample_config
      (by decide) (by decide) (by decide) (by decide) (by decide)⟩

/-- Unfolding lemma for one step of the `hvd_get_hw_pix_format` scan. -/
theorem hvd_get_hw_pix_format_cons (h : Hvd) (p : Int) (ps : List Int) :
    hvd_get_hw_pix_format h (p :: ps) =
      if p = -1 then AV_PIX_FMT_NONE
      else if p = h.hw_pix_fmt then p
      else hvd_get_hw_pix_format h ps := rfl

/-- C8: on every pixel-format list terminated by `-1` (`AV_PIX_FMT_NONE`),
`hvd_get_hw_pix_format` returns the handle's stored hardware pixel format
exactly when it occurs among the listed formats and `AV_PIX_FMT_NONE`
otherwise; the value returned is the first occurrence scanned in list order
(`List.find?`). -/
theorem hvd_get_hw_pix_format_spec (h : Hvd) (fmts rest : List Int)
    (hterm : AV_PIX_FMT_NONE ∉ fmts) :
    hvd_get_hw_pix_format h (fmts ++ AV_PIX_FMT_NONE :: rest) =
      (if h.hw_pix_fmt ∈ fmts then h.hw_pix_fmt else AV_PIX_FMT_NONE) ∧
    hvd_get_hw_pix_format h (fmts ++ AV_PIX_FMT_NONE :: rest) =
      ((fmts.find? fun p => p = h.hw_pix_fmt).getD AV_PIX_FMT_NONE) := by
  induction fmts with
  | nil =>
    constructor
    · simp [hvd_get_hw_pix_format, AV_PIX_FMT_NONE]
    · simp [hvd_get_hw_pix_format, AV_PIX_FMT_NONE]
  | cons p ps ih =>
    have hp : p ≠ -1 := by
      intro hcontra
      exact hterm (by simp [AV_PIX_FMT_NONE, hcontra])
    have hps : AV_PIX_FMT_NONE ∉ ps := fun hmem => hterm (List.mem_cons_of_mem p hmem)
    obtain ⟨ih1, ih2⟩ := ih hps
    constructor
    · rw [List.cons_append, hvd_get_hw_pix_format_cons, if_neg hp]
      by_cases heq : p = h.hw_pix_fmt
      · rw [if_pos heq,
          if_pos (show h.hw_pix_fmt ∈ p :: ps from heq ▸ List.mem_cons_self p ps)]
        exact heq
      · rw [if_neg heq, ih1]
        by_cases hmem : h.hw_pix_fmt ∈ ps
        · rw [if_pos hmem, if_pos (List.mem_cons_of_mem p hmem)]
        · rw [if_neg hmem, if_neg ?_]
          intro hc
          rcases List.mem_cons.mp hc with hc1 | hc2
          · exact heq hc1.symm
          · exact hmem hc2
    · rw [List.cons_append, hvd_get_hw_pix_format_cons, if_neg hp]
      by_cases heq : p = h.hw_pix_fmt
      · rw [if_pos heq, List.find?_cons_of_pos _ (by simp [heq]), Option.getD_some]
      · rw [if_neg heq, List.find?_cons_of_neg _ (by simp [heq]), ih2]

/-- Witness for C8 at a concrete input: scanning `[12, 44]` terminated by
`-1` for the stored format `44` returns `44`, the first occurrence. -/
theorem hvd_get_hw_pix_format_spec_witness :
    hvd_get_hw_pix_format sample_h ([12, 44] ++ AV_PIX_FMT_NONE :: [7]) =
      (if sample_h.hw_pix_fmt ∈ [12, 44] then sample_h.hw_pix_fmt
        else AV_PIX_FMT_NONE) ∧
    hvd_get_hw_pix_format sample_h ([12, 44] ++ AV_PIX_FMT_NONE :: [7]) =
      ((([12, 44] : List Int).find? fun p => p = sample_h.hw_pix_fmt).getD
        AV_PIX_FMT_NONE) :=
  hvd_get_hw_pix_format_spec sample_h [12, 44] [7] (by decide)

/-- Concrete init oracle in which every framework step succeeds. -/
def ok_init_env : InitEnv :=
  { malloc_ok := true
    find_type_by_name := fun _ => AV_HWDEVICE_TYPE_VAAPI
    find_decoder_by_name := fun _ => some 1
    alloc_context_ok := true
    hwdevice_create_ret := 0
    hwdevice_ctx := 7
    buffer_ref_ok := true
    open2_ret := 0 }

/-- Concrete init oracle in which every framework step enumerated by claim
C2 succeeds but the initial `malloc` of the handle fails. -/
def no_malloc_init_env : InitEnv :=
  { ok_init_env with malloc_ok := false }

/-- Concrete configuration resolving to the VAAPI device type. -/
def vaapi_config : HvdConfig :=
  { hardware := "vaapi", codec := "h264", device := none }

/-- Counterexample to C2 as stated: with the handle's `malloc` failing,
every setup step the claim enumerates succeeds — the hardware name is found,
a hardware pixel format is known, the codec is found, the decoder context
would be allocated, the device context created, the reference taken, the
codec context opened — yet `hvd_init` returns `NULL` (the `hvd.c` line 45-49
branch, which the claim's enumeration omits). -/
theorem hvd_init_none_despite_listed_steps :
    hvd_init no_malloc_init_env vaapi_config = none ∧
    no_malloc_init_env.find_type_by_name vaapi_config.hardware ≠
      AV_HWDEVICE_TYPE_NONE ∧
    hvd_find_pixel_fmt_by_hw_type
        (no_malloc_init_env.find_type_by_name vaapi_config.hardware) ≠
      AV_PIX_FMT_NONE ∧
    (no_malloc_init_env.find_decoder_by_name vaapi_config.codec).isSome = true ∧
    no_malloc_init_env.alloc_context_ok = true ∧
    0 ≤ no_malloc_init_env.hwdevice_create_ret ∧
    no_malloc_init_env.buffer_ref_ok = true ∧
    0 ≤ no_malloc_init_env.open2_ret := by
  decide

/-- C2 as amended: `hvd_init` returns a non-`NULL` handle if and only if the
allocation of the handle structure itself succeeds and every setup step the
claim enumerates succeeds: the hardware name is found in the device
registry, a hardware pixel format is known for the device type, the codec
name is found in the decoder registry, the decoder context is allocated, the
hardware device context is created, the device-context reference is taken,
and the codec context is opened. -/
theorem hvd_init_isSome_iff (env : InitEnv) (config : HvdConfig) :
    (hvd_init env config).isSome = true ↔
      (env.malloc_ok = true ∧
        env.find_type_by_name config.hardware ≠ AV_HWDEVICE_TYPE_NONE ∧
        hvd_find_pixel_fmt_by_hw_type (env.find_type_by_name config.hardware) ≠
          AV_PIX_FMT_NONE ∧
        (env.find_decoder_by_name config.codec).isSome = true ∧
        env.alloc_context_ok = true ∧
        0 ≤ env.hwdevice_create_ret ∧
        env.buffer_ref_ok = true ∧
        0 ≤ env.open2_ret) := by
  unfold hvd_init
  rcases hd : env.find_decoder_by_name config.codec with _ | d <;>
    simp only [hd] <;>
    split_ifs <;>
    simp_all

/-- Witness for the amended C2 at a concrete input: with every step
succeeding, `hvd_init` returns a handle. -/
theorem hvd_init_isSome_iff_witness :
    (hvd_init ok_init_env vaapi_config).isSome = true :=
  (hvd_init_isSome_iff ok_init_env vaapi_config).mpr (by decide)

/-- Concrete framework-side device-type-to-pixel-format mapping used to
refute C6: it answers `999` for every device type, a value different from
everything the wrapper's local switch ever produces. -/
def framework_map_999 : Int → Int := fun _ => 999

/-- Counterexample to C6 as stated: the hardware pixel format stored by
`hvd_init` is computed by the wrapper's local hardcoded switch, not by the
framework.  With a framework whose own mapping answers `999` for the VAAPI
device type, the spec-following variant `hvd_init_spec_delegated` would
store `999`, but the code stores `AV_PIX_FMT_VAAPI` — the output of the
local `hvd_find_pixel_fmt_by_hw_type` — which differs. -/
theorem hvd_init_pix_fmt_not_framework_computed :
    (hvd_init ok_init_env vaapi_config).map Hvd.hw_pix_fmt =
      some AV_PIX_FMT_VAAPI ∧
    (hvd_init_spec_delegated framework_map_999 ok_init_env vaapi_config).map
        Hvd.hw_pix_fmt = some 999 ∧
    framework_map_999
        (ok_init_env.find_type_by_name vaapi_config.hardware) = 999 ∧
    AV_PIX_FMT_VAAPI ≠ (999 : Int) := by
  decide

/-- C6 as amended: the mapping from the configured hardware device type to
the hardware pixel format is computed by logic local to this wrapper — the
hardcoded switch `hvd_find_pixel_fmt_by_hw_type` — for every successful
`hvd_init`; it does not depend on any framework-computed mapping. -/
theorem hvd_init_pix_fmt_is_local_switch (env : InitEnv) (config : HvdConfig)
    (h' : Hvd) (hh : hvd_init env config = some h') :
    h'.hw_pix_fmt =
      hvd_find_pixel_fmt_by_hw_type (env.find_type_by_name config.hardware) := by
  unfold hvd_init at hh
  rcases hd : env.find_decoder_by_name config.codec with _ | d <;>
    simp only [hd] at hh <;>
    split_ifs at hh <;>
    simp_all
  subst hh
  rfl

/-- Witness for the amended C6 at a concrete input. -/
theorem hvd_init_pix_fmt_is_local_switch_witness :
    Hvd.hw_pix_fmt
        { hw_device_ctx := some 7
          hw_pix_fmt := AV_PIX_FMT_VAAPI
          decoder_ctx := some { codec := 1, hw_device_ref := some 7 }
          sw_frame := none
          hw_frame := none
          av_packet := { data := none, size := 0 } } =
      hvd_find_pixel_fmt_by_hw_type
        (ok_init_env.find_type_by_name vaapi_config.hardware) :=
  hvd_init_pix_fmt_is_local_switch ok_init_env vaapi_config _ (by decide)

/-- C3: every successful (non-`NULL`) `hvd_receive_frame` returns the
host-memory copy produced by `av_hwframe_transfer_data` from the decoded
hardware frame, stored in the handle's `sw_frame`; it does so only when the
decoded hardware frame's pixel format equals the handle's hardware pixel
format, so a frame decoded in a different format is never returned to the
caller. -/
theorem hvd_receive_frame_success_shape (env : ReceiveEnv) (h : Hvd)
    (f : AVFrame) (hf : (hvd_receive_frame env h).frame = some f) :
    env.decoded.format = h.hw_pix_fmt ∧
    f = (env.transfer env.decoded).2 ∧
    0 ≤ (env.transfer env.decoded).1 ∧
    (hvd_receive_frame env h).h.sw_frame = some f ∧
    (hvd_receive_frame env h).h.hw_frame = some env.decoded ∧
    0 ≤ env.receive_ret := by
  simp only [hvd_receive_frame] at hf ⊢
  split_ifs at hf ⊢ <;> simp_all

/-- Concrete receive oracle used by the C3 witness: both allocations
succeed, the framework decodes a frame in the handle's hardware format, and
the transfer to system memory succeeds, producing a host frame with the same
data identity in a software format. -/
def ok_receive_env : ReceiveEnv :=
  { alloc_hw_ok := true
    alloc_sw_ok := true
    receive_ret := 0
    decoded := { format := AV_PIX_FMT_VAAPI, id := 9 }
    transfer := fun fr => (0, { format := 23, id := fr.id }) }

/-- Witness for C3 at a concrete input. -/
theorem hvd_receive_frame_success_shape_witness :
    ok_receive_env.decoded.format = sample_h.hw_pix_fmt ∧
    ({ format := 23, id := 9 } : AVFrame) =
      (ok_receive_env.transfer ok_receive_env.decoded).2 ∧
    0 ≤ (ok_receive_env.transfer ok_receive_env.decoded).1 ∧
    (hvd_receive_frame ok_receive_env sample_h).h.sw_frame =
      some { format := 23, id := 9 } ∧
    (hvd_receive_frame ok_receive_env sample_h).h.hw_frame =
      some ok_receive_env.decoded ∧
    0 ≤ ok_receive_env.receive_ret :=
  hvd_receive_frame_success_shape ok_receive_env sample_h
    { format := 23, id := 9 } (by decide)

/-- C4: `hvd_receive_frame` pairs its return value and `*error` as follows:
a non-`NULL` return has `*error = HVD_OK`; a `NULL` return with
`*error = HVD_OK` occurs exactly when the framework's
`avcodec_receive_frame` reports `AVERROR(EAGAIN)` or `AVERROR_EOF` (after
both frame allocations succeeded), the decoder's buffers being flushed
exactly in the `AVERROR_EOF` case; every other `NULL` return carries
`*error = HVD_ERROR` (the out-parameter is assigned on every path by
construction). -/
theorem hvd_receive_frame_error_protocol (env : ReceiveEnv) (h : Hvd) :
    ((hvd_receive_frame env h).frame.isSome = true →
      (hvd_receive_frame env h).error = HVD_OK) ∧
    (((hvd_receive_frame env h).frame = none ∧
        (hvd_receive_frame env h).error = HVD_OK) ↔
      (env.alloc_hw_ok = true ∧ env.alloc_sw_ok = true ∧
        (env.receive_ret = AVERROR_EAGAIN ∨ env.receive_ret = AVERROR_EOF))) ∧
    ((hvd_receive_frame env h).flush_called = true ↔
      (env.alloc_hw_ok = true ∧ env.alloc_sw_ok = true ∧
        env.receive_ret = AVERROR_EOF)) ∧
    ((hvd_receive_frame env h).error = HVD_OK ∨
      (hvd_receive_frame env h).error = HVD_ERROR) := by
  simp only [hvd_receive_frame]
  split_ifs <;>
    simp_all [HVD_OK, HVD_ERROR, AVERROR_EAGAIN, AVERROR_EOF] <;>
    omega

/-- Concrete receive oracle used by the C4 witness: the framework reports
`AVERROR_EOF`. -/
def eof_receive_env : ReceiveEnv :=
  { alloc_hw_ok := true
    alloc_sw_ok := true
    receive_ret := AVERROR_EOF
    decoded := blank_frame
    transfer := fun fr => (0, fr) }

/-- Witness for C4 at a concrete input: a fully flushed decoder yields
`NULL` with `HVD_OK`. -/
theorem hvd_receive_frame_error_protocol_witness :
    (hvd_receive_frame eof_receive_env sample_h).frame = none ∧
    (hvd_receive_frame eof_receive_env sample_h).error = HVD_OK :=
  (hvd_receive_frame_error_protocol eof_receive_env sample_h).2.1.mpr (by decide)

end HvdSpec
